import Mathlib

/-!
Verification development for the reverse TCP tunnel / port multiplexer
(`src/server/redirector.ts`, `src/client/starter.ts`, and the unnamed
starter variant `src/unnamed/part_002`).

The event handlers of the source are embedded as pure step functions:
each socket `data` / `close` handler becomes a function from the
process-wide mutable state (the `ports` registry, the `connections`
session table, the `shredded_packets` fragment buffers) and the received
chunk to the new state together with the writes the handler performs.
A received chunk is represented as the header text before the first
occurrence of the configured separator plus the body bytes after it,
exactly the two components the handlers recover with
`data.toString().split(config.separator, 1)` and
`data.subarray(header.length + separator.length)`.

The SHA-1 and SHA-512 calls (`createHash(...).update(body).digest('hex')`)
are embedded as explicit function parameters `h1 h2 : List Nat → String`:
every theorem quantifies over them, and witnesses instantiate them with a
small computable stand-in, since no property below depends on the
internals of the hashes, only on recompute-and-compare equality.
-/

namespace ReverseProxy

/-- Splitting a character list on a separator character, JavaScript
`String.prototype.split` style: separators at the ends and adjacent
separators produce empty groups. The accumulator holds the current group
reversed. -/
def splitCharAux (c : Char) : List Char → List Char → List (List Char)
  | [], acc => [acc.reverse]
  | x :: xs, acc =>
      if x = c then acc.reverse :: splitCharAux c xs []
      else splitCharAux c xs (x :: acc)

/-- JavaScript `s.split(c)` for a one-character separator `c`. -/
def splitChar (c : Char) (s : String) : List String :=
  (splitCharAux c s.toList []).map (fun l => String.mk l)

/-- JavaScript `s.split(c, limit)`: split fully, keep the first `limit`
groups. -/
def jsSplit (c : Char) (s : String) (limit : Nat) : List String :=
  (splitChar c s).take limit

/-- Decimal value of a digit run (the run is known to be all digits). -/
def digitsToNat : List Char → Nat → Nat
  | [], acc => acc
  | c :: cs, acc => digitsToNat cs (acc * 10 + (c.toNat - 48))

/-- JavaScript `parseInt` as used by the source: the longest leading run
of decimal digits, `none` standing for `NaN` when there is none. The
source never passes signs, radix prefixes or leading whitespace. -/
def jsParseInt (s : String) : Option Nat :=
  let ds := s.toList.takeWhile Char.isDigit
  if ds.isEmpty then none else some (digitsToNat ds 0)

/-- `parseInt` applied to a possibly-undefined token;
`parseInt(undefined)` is `NaN`, embedded as `none`. -/
def jsParseIntOpt (o : Option String) : Option Nat :=
  o.bind jsParseInt

/-- `isPacketType` of `src/server/redirector.ts` (enum `PacketType` with
values DATA, END, CLOSE, AUTH, SHRED); `none` is `undefined`, which is
not a string hence not a packet type. -/
def isPacketType (o : Option String) : Bool :=
  match o with
  | some s => ["DATA", "END", "CLOSE", "AUTH", "SHRED"].contains s
  | none => false

/-- `isPacketType` of `src/unnamed/part_002` (its enum has only DATA,
CLOSE, AUTH). -/
def isPacketType2 (o : Option String) : Bool :=
  match o with
  | some s => ["DATA", "CLOSE", "AUTH"].contains s
  | none => false

/-- `isUUID` of `src/server/redirector.ts` lines 61-63 (identical in
`src/unnamed/part_002` lines 52-54):
`typeof data === "string" && data.length === 36 && data.split('-', 6).length === 5`. -/
def isUUID (o : Option String) : Bool :=
  match o with
  | some s => s.length == 36 && (jsSplit '-' s 6).length == 5
  | none => false

theorem splitCharAux_length (c : Char) (l : List Char) :
    ∀ acc, (splitCharAux c l acc).length = l.count c + 1 := by
  induction l with
  | nil => intro acc; simp [splitCharAux]
  | cons x xs ih =>
      intro acc
      by_cases h : x = c
      · simp [splitCharAux, h, ih, List.count_cons]
      · simp [splitCharAux, h, ih, List.count_cons]

/-- A chunk as delivered by one socket `data` event: the header text
before the first occurrence of the configured separator, and the body
bytes after it. The source recovers these two components with
`split(config.separator, 1)` and `subarray(header.length + sep.length)`;
the embedding is faithful whenever the separator does not occur inside
the header, which holds for the header token alphabet. -/
structure Chunk where
  header : String
  body : List Nat
deriving Repr, DecidableEq

/-- Association table keyed by session id, embedding a JS `Map` with
string keys (insertion order preserved, `set` of a fresh key appends). -/
abbrev Table (α : Type) := List (String × α)

/-- `Map.get`. -/
def tGet {α : Type} (t : Table α) (k : String) : Option α :=
  (t.find? (fun p => p.1 == k)).map Prod.snd

/-- `Map.has`. -/
def tHas {α : Type} (t : Table α) (k : String) : Bool :=
  t.any (fun p => p.1 == k)

/-- `Map.set`. -/
def tSet {α : Type} (t : Table α) (k : String) (v : α) : Table α :=
  if tHas t k then t.map (fun p => if p.1 == k then (k, v) else p)
  else t ++ [(k, v)]

/-- `Map.delete`. -/
def tDelete {α : Type} (t : Table α) (k : String) : Table α :=
  t.filter (fun p => p.1 != k)

/-- A per-session fragment buffer: a JS `Map` from fragment number to
body bytes. The key is `parseInt(packet_no)`, which can be `NaN`
(embedded as `none`); JS `Map` treats `NaN` as equal to itself as a key,
which `Option Nat` equality mirrors. -/
abbrev FragMap := List (Option Nat × List Nat)

/-- `Map.get` on a fragment buffer. -/
def fmGet (m : FragMap) (k : Option Nat) : Option (List Nat) :=
  (m.find? (fun p => p.1 == k)).map Prod.snd

/-- `Map.set` on a fragment buffer. -/
def fmSet (m : FragMap) (k : Option Nat) (v : List Nat) : FragMap :=
  if m.any (fun p => p.1 == k) then m.map (fun p => if p.1 == k then (k, v) else p)
  else m ++ [(k, v)]

/-- `Map.size` on a fragment buffer (buffers are only ever built with
`fmSet`, so entries have distinct keys). -/
def fmSize (m : FragMap) : Nat := m.length

/-- `appendHeader(PacketType.CLOSE, id)` of `src/server/redirector.ts`
line 74: the frame `CLOSE <id><separator>` with no body. -/
def redirAppendHeaderClose (id : String) : Chunk :=
  ⟨"CLOSE " ++ id, []⟩

/-- `appendHeader(PacketType.DATA, id, data, port)` of
`src/server/redirector.ts` lines 82-89. -/
def redirAppendHeaderData (h1 h2 : List Nat → String) (id : String)
    (data : List Nat) (port : Nat) : Chunk :=
  ⟨"DATA " ++ id ++ " " ++ toString port ++ " " ++ h1 data ++ " " ++ h2 data, data⟩

/-- `appendHeader(PacketType.SHRED, id, data, port, packet_no, total)`
of `src/server/redirector.ts` lines 90-99. -/
def redirAppendHeaderShred (h1 h2 : List Nat → String) (id : String)
    (data : List Nat) (port : Nat) (packet_no : Nat) (total : Nat) : Chunk :=
  ⟨"SHRED " ++ id ++ " " ++ toString port ++ " " ++ h1 data ++ " " ++ h2 data
    ++ " " ++ toString packet_no ++ " " ++ toString total, data⟩

/-- `appendHeader(data, id, packet_no?, total?)` of
`src/client/starter.ts` lines 39-44: a typeless header
`<id> <sha1> <sha512>[ <n> <total>]`. -/
def starterAppendHeader (h1 h2 : List Nat → String) (data : List Nat)
    (id : String) (frag : Option (Nat × Nat)) : Chunk :=
  ⟨id ++ " " ++ h1 data ++ " " ++ h2 data
    ++ (match frag with
        | some nt => " " ++ toString nt.1 ++ " " ++ toString nt.2
        | none => ""), data⟩

/-- `MAX_PACKET_SIZE`, the fragmentation cap, 384 in both peers. -/
def MAX_PACKET_SIZE : Nat := 384

/-- The splitting loop
`for (let i = 0; i < data.length; i += MAX_PACKET_SIZE) packets.push(data.subarray(i, i + MAX_PACKET_SIZE))`
shared by `src/client/starter.ts` lines 115-118 and
`src/server/redirector.ts` lines 145-148: the iteration at `i = k*MAX`
runs for every `k` below the ceiling of `length / MAX`. -/
def shredSplit (data : List Nat) : List (List Nat) :=
  (List.range ((data.length + MAX_PACKET_SIZE - 1) / MAX_PACKET_SIZE)).map
    (fun k => (data.drop (k * MAX_PACKET_SIZE)).take MAX_PACKET_SIZE)

/-- The `conn_socket.on('data')` handler of `src/client/starter.ts`
lines 109-128: a chunk read from the backend socket of session `id`
becomes one DATA frame, or a run of SHRED frames with 1-based indices
`i + 1` when it exceeds `MAX_PACKET_SIZE`; every frame is written to the
control socket. Returns the chunks written, in order. -/
def starterConnData (h1 h2 : List Nat → String) (id : String)
    (data : List Nat) : List Chunk :=
  if data.length > MAX_PACKET_SIZE then
    let packets := shredSplit data
    let total := packets.length
    packets.enum.map (fun ip => starterAppendHeader h1 h2 ip.2 id (some (ip.1 + 1, total)))
  else [starterAppendHeader h1 h2 data id none]

/-- Destination of a write performed by the redirector's per-connection
`data` handler: the control socket (`main_socket.write`) or the public
socket the chunk was read from (`socket.write`). -/
inductive Dest
  | main
  | pub
deriving Repr, DecidableEq

/-- The `socket.on('data')` handler of `src/server/redirector.ts` lines
140-157 for a public socket of session `id` on `port`: an oversize chunk
is split and each fragment is framed as SHRED with the 0-based loop
index `i` and written back to the public socket (`socket.write`, line
153); otherwise one DATA frame goes to the control socket. -/
def redirectorSockData (h1 h2 : List Nat → String) (id : String)
    (port : Nat) (data : List Nat) : List (Dest × Chunk) :=
  if data.length > MAX_PACKET_SIZE then
    let packets := shredSplit data
    let total := packets.length
    packets.enum.map (fun ip =>
      (Dest.pub, redirAppendHeaderShred h1 h2 id ip.2 port ip.1 total))
  else [(Dest.main, redirAppendHeaderData h1 h2 id data port)]

/-- Process-wide mutable state of `src/server/redirector.ts`: the
`ports` registry (null until AUTH succeeds; `parseInt` can yield `NaN`,
embedded as `none` entries), the `servers` map of public listeners (the
flag records whether the listener is still accepting, `server.close()`
clears it without removing the map entry), the `connections` session
table (session id to the public socket's local port), and the
`shredded_packets` fragment buffers. -/
structure RedirectorState where
  ports : Option (List (Option Nat))
  servers : List (Option Nat × Bool)
  connections : Table Nat
  shredded_packets : Table FragMap
deriving Repr, DecidableEq

/-- Writes performed by one run of the redirector's control-socket
`data` handler: frames written to the control socket, and byte strings
written to public (downstream) sockets, tagged with the session id. -/
structure ROut where
  toMain : List Chunk
  toPub : List (String × List Nat)
deriving Repr, DecidableEq

/-- Outcome of the authentication branch (`ports === null`) of the
`main_socket.on('data')` handler, `src/server/redirector.ts` lines
105-174: either the control socket is ended (`main_socket.end()`), or
the port registry is populated and one public listener is opened per
entry. -/
inductive AuthResult
  | closeSocket
  | accept (ports : List (Option Nat))
deriving Repr, DecidableEq

/-- The authentication branch of `main_socket.on('data')`,
`src/server/redirector.ts` lines 105-174. The whole chunk text is split
on spaces into `[action, auth, ports_str]`; the handler ends the socket
unless `action` is a packet type other than AUTH (line 108 tests
`action === PacketType.AUTH` and closes when it holds), the secret
matches, and the port list token is non-empty; on success the port list
is `split(';')` and `parseInt`-ed and a listener is opened per entry. -/
def redirectorAuth (auth_config : String) (data : String) : AuthResult :=
  let toks := splitChar ' ' data
  let action := toks[0]?
  let auth := toks[1]?
  let ports_str := toks[2]?
  if action == none || action == some ("") || !isPacketType action
      || action == some ("AUTH") then
    AuthResult.closeSocket
  else if auth == none || auth == some ("") || auth != some auth_config then
    AuthResult.closeSocket
  else if ports_str == none || ports_str == some ("") then
    AuthResult.closeSocket
  else
    AuthResult.accept ((splitChar ';' (ports_str.getD (""))).map jsParseInt)

/-- The established branch (`ports !== null`) of
`main_socket.on('data')`, `src/server/redirector.ts` lines 176-241.
The header is split on spaces with limit 5 and destructured into six
names, so `total` reads past the split limit and is always `undefined`;
the `typeof body === "undefined"` test of line 214 can never fire and is
omitted. On a frame with an unknown session id a CLOSE frame is written
back to the control socket. Delivery of a reassembled payload compares
`s_packet.size` with `parseInt(total)`; the source does not clear the
buffer after delivery. -/
def redirectorMainDataEstablished (h1 h2 : List Nat → String)
    (st : RedirectorState) (ch : Chunk) : RedirectorState × ROut :=
  if ch.header == "" then (st, ⟨[], []⟩)
  else
    let toks := jsSplit ' ' ch.header 5
    let action := toks[0]?
    let id := toks[1]?
    let sha1_dig := toks[2]?
    let sha512_dig := toks[3]?
    let packet_no := toks[4]?
    let total := toks[5]?
    if !isUUID id then (st, ⟨[], []⟩)
    else
      let i := id.getD ("")
      match tGet st.connections i with
      | none => (st, ⟨[redirAppendHeaderClose i], []⟩)
      | some _port =>
        let body := ch.body
        if sha1_dig != some (h1 body) || sha512_dig != some (h2 body) then
          (st, ⟨[], []⟩)
        else if !isPacketType action then (st, ⟨[], []⟩)
        else if packet_no == none || packet_no == some ("") then
          (st, ⟨[], [(i, body)]⟩)
        else
          match tGet st.shredded_packets i with
          | some s_packet =>
            let s1 := fmSet s_packet (jsParseIntOpt packet_no) body
            let st1 := { st with shredded_packets := tSet st.shredded_packets i s1 }
            if jsParseIntOpt total == some (fmSize s1) then
              let packets := (List.range ((jsParseIntOpt total).getD 0)).map
                (fun k => (fmGet s1 (some k)).getD [])
              (st1, ⟨[], [(i, packets.flatten)]⟩)
            else (st1, ⟨[], []⟩)
          | none =>
            let fresh := fmSet [] (jsParseIntOpt packet_no) body
            ({ st with shredded_packets := tSet st.shredded_packets i fresh },
             ⟨[], []⟩)

/-- The `main_socket.on('close', error => ...)` handler of
`src/server/redirector.ts` lines 244-253: when the close follows a
transmission error the handler returns at once; otherwise it nulls the
`ports` registry and calls `server.close()` on every public listener.
The `servers` map keeps its entries, and `connections` and
`shredded_packets` are untouched. -/
def redirectorMainClose (hadError : Bool) (st : RedirectorState) :
    RedirectorState :=
  if hadError then st
  else
    { st with
        ports := none,
        servers := st.servers.map (fun p => (p.1, false)) }

/-- Folding the established-branch handler over a sequence of chunks,
accumulating all writes. -/
def redirectorRun (h1 h2 : List Nat → String) (st : RedirectorState)
    (chs : List Chunk) : RedirectorState × ROut :=
  chs.foldl
    (fun acc ch =>
      let next := redirectorMainDataEstablished h1 h2 acc.1 ch
      (next.1, ⟨acc.2.toMain ++ next.2.toMain, acc.2.toPub ++ next.2.toPub⟩))
    (st, ⟨[], []⟩)

/-- Process-wide mutable state of `src/client/starter.ts`: the
`connections` table (session id to the backend port, `parseInt` of the
port token, `NaN` embedded as `none`), the `shredded_packets` fragment
buffers, and the `reassembled_packets` map (a running hash object per
id; only the body it was seeded with matters to the state, so that body
is stored). -/
structure StarterState where
  connections : Table (Option Nat)
  shredded_packets : Table FragMap
  reassembled_packets : Table (List Nat)
deriving Repr, DecidableEq

/-- Writes and socket openings performed by one run of the starter's
control-socket `data` handler: byte strings written to backend sockets
(tagged by session id) and backend connections newly opened and
registered. -/
structure SOut where
  toBackend : List (String × List Nat)
  newConnections : List (String × Option Nat)
deriving Repr, DecidableEq

/-- The `socket.on('data')` handler of `src/client/starter.ts` lines
68-180. The header is split on spaces with limit 4 and destructured
into six names, so `packet_no` and `total` read past the split limit
and are always `undefined`; in particular the SHRED branch of lines
162-179 is unreachable and every chunk that survives the checksum and
id/port tests takes the plain-DATA path. The checksum test (line 84)
precedes the id/port tests (line 93); an unknown id opens a backend
connection before the body is written. The `typeof header` test of
line 70 can never fire and is omitted. -/
def starterSocketData (h1 h2 : List Nat → String) (st : StarterState)
    (ch : Chunk) : StarterState × SOut :=
  let toks := jsSplit ' ' ch.header 4
  let id := toks[0]?
  let port_str := toks[1]?
  let sha1_dig := toks[2]?
  let sha512_dig := toks[3]?
  let packet_no := toks[4]?
  let total := toks[5]?
  let body := ch.body
  if sha1_dig != some (h1 body) || sha512_dig != some (h2 body) then
    (st, ⟨[], []⟩)
  else if id == none || port_str == none then (st, ⟨[], []⟩)
  else
    let i := id.getD ("")
    let port := jsParseIntOpt port_str
    let opened :=
      if !tHas st.connections i then
        ({ st with connections := tSet st.connections i port }, [(i, port)])
      else (st, ([] : List (String × Option Nat)))
    let st1 := opened.1
    let newC := opened.2
    if packet_no == none || packet_no == some ("") then
      (st1, ⟨[(i, body)], newC⟩)
    else
      match tGet st1.shredded_packets i with
      | some s_packet =>
        let s1 := fmSet s_packet (jsParseIntOpt packet_no) body
        let st2 := { st1 with shredded_packets := tSet st1.shredded_packets i s1 }
        if jsParseIntOpt total == some (fmSize s1) then
          let packets := (List.range ((jsParseIntOpt total).getD 0)).map
            (fun k => (fmGet s1 (some k)).getD [])
          (st2, ⟨[(i, packets.flatten)], newC⟩)
        else (st2, ⟨[], newC⟩)
      | none =>
        let fresh := fmSet [] (jsParseIntOpt packet_no) body
        ({ st1 with
            shredded_packets := tSet st1.shredded_packets i fresh,
            reassembled_packets := tSet st1.reassembled_packets i body },
         ⟨[], newC⟩)

/-- The `conn_socket.on('close')` handler of `src/client/starter.ts`
lines 130-133 (identical in `src/unnamed/part_002` lines 187-190): the
session id is deleted from the connection table, and nothing is written
to the control socket. The second component lists the frames the
handler writes upstream. -/
def starterConnClose (st : StarterState) (id : String) :
    StarterState × List Chunk :=
  ({ st with connections := tDelete st.connections id }, [])

/-- Process-wide mutable state of the starter variant
`src/unnamed/part_002`: only the `connections` table (this variant has
no fragmentation support). -/
structure Starter2State where
  connections : Table (Option Nat)
deriving Repr, DecidableEq

/-- Writes, socket endings and socket openings performed by one run of
the part_002 starter's control-socket `data` handler. -/
structure S2Out where
  toBackend : List (String × List Nat)
  ended : List String
  newConnections : List (String × Option Nat)
deriving Repr, DecidableEq

/-- The `socket.on('data')` handler of `src/unnamed/part_002` lines
113-227: the header is split on spaces with limit 5 into
`[action, id, port_str, sha1_dig, sha512_dig]`; frames whose action is
not a packet type or whose id is not a UUID are ignored; a CLOSE frame
ends the backend socket registered under the id (when one is) and
deletes the table entry; otherwise the checksum is verified and the
body forwarded to the backend socket, opening it first on an unknown
id. -/
def starter2SocketData (h1 h2 : List Nat → String) (st : Starter2State)
    (ch : Chunk) : Starter2State × S2Out :=
  let toks := jsSplit ' ' ch.header 5
  let action := toks[0]?
  let id := toks[1]?
  let port_str := toks[2]?
  let sha1_dig := toks[3]?
  let sha512_dig := toks[4]?
  if !isPacketType2 action then (st, ⟨[], [], []⟩)
  else if !isUUID id then (st, ⟨[], [], []⟩)
  else
    let i := id.getD ("")
    if action == some ("CLOSE") then
      ({ st with connections := tDelete st.connections i },
       ⟨[], if tHas st.connections i then [i] else [], []⟩)
    else if port_str == none then (st, ⟨[], [], []⟩)
    else
      let body := ch.body
      if sha1_dig != some (h1 body) || sha512_dig != some (h2 body) then
        (st, ⟨[], [], []⟩)
      else
        let port := jsParseIntOpt port_str
        let opened :=
          if !tHas st.connections i then
            ({ st with connections := tSet st.connections i port }, [(i, port)])
          else (st, ([] : List (String × Option Nat)))
        (opened.1, ⟨[(i, body)], [], opened.2⟩)

/-! Concrete fixtures used by witnesses and counterexamples. `wh` is a
computable stand-in for the abstract hash parameters: every theorem
quantifies over the hashes, and the fixtures instantiate them with the
decimal length of the body, which like a hex digest contains no space. -/

/-- Stand-in digest used by witnesses: decimal length of the body. -/
def wh : List Nat → String := fun l => toString l.length

/-- A well-formed session id (36 characters, four hyphens). -/
def exId : String := "11111111-2222-3333-4444-555555555555"

/-- A second well-formed session id, absent from every fixture table. -/
def exId2 : String := "99999999-2222-3333-4444-555555555555"

/-- A redirector state with one established session `exId` on port 8080
and no pending fragment buffers. -/
def exRState1 : RedirectorState :=
  { ports := some [some 8080], servers := [(some 8080, true)],
    connections := [(exId, 8080)], shredded_packets := [] }

/-- A starter state with no sessions. -/
def exSState0 : StarterState :=
  { connections := [], shredded_packets := [], reassembled_packets := [] }

/-- A starter state with one session `exId`. -/
def exSState1 : StarterState :=
  { connections := [(exId, some 8080)], shredded_packets := [],
    reassembled_packets := [] }

/-- A part_002 starter state with one session `exId`. -/
def exS2State : Starter2State := { connections := [(exId, some 8080)] }

/-- A 385-byte payload, one byte over `MAX_PACKET_SIZE`. -/
def exPayload : List Nat := List.replicate 385 97

/-- First fragment of `exPayload` under the 384-byte cap. -/
def exFragA : List Nat := List.replicate 384 97

/-- Second fragment of `exPayload` under the 384-byte cap. -/
def exFragB : List Nat := [97]

/-- A starter-to-redirector SHRED frame in the action-tagged layout the
redirector's established branch parses (`SHRED <id> <sha1> <sha512> <n>
<total>`), carrying fragment 1 of 2 of `exPayload` with digests that
match under `wh`. -/
def exTypedShred1 : Chunk :=
  ⟨"SHRED " ++ exId ++ " " ++ wh exFragA ++ " " ++ wh exFragA ++ " 1 2", exFragA⟩

/-- Fragment 2 of 2 of `exPayload`, same layout as `exTypedShred1`. -/
def exTypedShred2 : Chunk :=
  ⟨"SHRED " ++ exId ++ " " ++ wh exFragB ++ " " ++ wh exFragB ++ " 2 2", exFragB⟩

/-- A DATA frame for session `exId` whose header digests do not match
the body under `wh`. -/
def exMismatchR : Chunk := ⟨"DATA " ++ exId ++ " xx yy", [5, 6]⟩

/-- A typeless frame (starter wire layout) whose header digests do not
match the body under `wh`. -/
def exMismatchS : Chunk := ⟨exId ++ " 8080 xx yy", [5, 6]⟩

/-- A CLOSE frame for session `exId`. -/
def exCloseChunk : Chunk := ⟨"CLOSE " ++ exId, []⟩

/-- A DATA frame for the unknown session `exId2` (digests match `wh`,
though the redirector never checks them for an unknown id). -/
def exUnknownData : Chunk := ⟨"DATA " ++ exId2 ++ " 2 2", [5, 6]⟩

/-- A SHRED frame in the starter's own typeless wire layout
(`<id> <port> <sha1> <sha512> <n> <total>`), fragment 1 of 2, digests
matching under `wh`. -/
def exOldShred : Chunk :=
  ⟨exId ++ " 8080 " ++ wh exFragB ++ " " ++ wh exFragB ++ " 1 2", exFragB⟩

/-! Association-table lemmas shared by several claims. -/

theorem tDelete_cons_self {α : Type} (p : String × α) (t : Table α)
    (i : String) (hpi : p.1 = i) : tDelete (p :: t) i = tDelete t i := by
  simp [tDelete, List.filter_cons, hpi]

theorem tDelete_cons_ne {α : Type} (p : String × α) (t : Table α)
    (i : String) (hpi : p.1 ≠ i) : tDelete (p :: t) i = p :: tDelete t i := by
  simp [tDelete, List.filter_cons, hpi]

theorem tGet_tDelete_self {α : Type} (t : Table α) (i : String) :
    tGet (tDelete t i) i = none := by
  induction t with
  | nil => rfl
  | cons p t ih =>
      by_cases hpi : p.1 = i
      · rw [tDelete_cons_self p t i hpi]
        exact ih
      · rw [tDelete_cons_ne p t i hpi]
        unfold tGet
        rw [List.find?_cons_of_neg _ (by simp [hpi])]
        exact ih

theorem tGet_tDelete_ne {α : Type} (t : Table α) (i j : String)
    (h : j ≠ i) : tGet (tDelete t i) j = tGet t j := by
  induction t with
  | nil => rfl
  | cons p t ih =>
      by_cases hpi : p.1 = i
      · rw [tDelete_cons_self p t i hpi]
        have hpj : (p.1 == j) = false := by
          simp only [beq_eq_false_iff_ne]
          intro hj
          exact h (hj ▸ hpi)
        rw [ih]
        unfold tGet
        rw [List.find?_cons_of_neg _ (by simp [hpj])]
      · rw [tDelete_cons_ne p t i hpi]
        by_cases hpj : p.1 = j
        · unfold tGet
          rw [List.find?_cons_of_pos _ (by simp [hpj]),
            List.find?_cons_of_pos _ (by simp [hpj])]
        · unfold tGet
          rw [List.find?_cons_of_neg _ (by simp [hpj]),
            List.find?_cons_of_neg _ (by simp [hpj])]
          exact ih

/-! Claim theorems. -/

/-- C9. The session-id validator accepts a string exactly when its
length is 36 and it has exactly four hyphens (five hyphen-delimited
groups): `data.split('-', 6)` truncates the full split — which has one
group more than the hyphen count — to at most six groups, and a
truncated length of five forces exactly four hyphens. No version or
variant bits are inspected. -/
theorem c9_isUUID_length_and_hyphens (s : String) :
    isUUID (some s) = true ↔ (s.length = 36 ∧ s.toList.count '-' = 4) := by
  show (s.length == 36 && (jsSplit '-' s 6).length == 5) = true ↔ _
  unfold jsSplit splitChar
  rw [List.length_take, List.length_map, splitCharAux_length]
  rw [Bool.and_eq_true, beq_iff_eq, beq_iff_eq]
  constructor
  · rintro ⟨hl, hm⟩
    exact ⟨hl, by omega⟩
  · rintro ⟨hl, hc⟩
    exact ⟨hl, by omega⟩

/-- Witness for C9: a concrete 36-character, four-hyphen string that is
not a version-4 UUID (its version nibble is 2) is accepted. -/
theorem c9_isUUID_witness :
    isUUID (some ("11111111-2222-2333-4444-555555555555")) = true :=
  (c9_isUUID_length_and_hyphens ("11111111-2222-2333-4444-555555555555")).mpr
    (by constructor <;> decide)

/-- C3 (code bug). With configured secret `hunter2`, the mandated AUTH
frame `AUTH hunter2 8080` makes the authentication branch end the
control socket, because line 108 of `src/server/redirector.ts` closes
when `action === PacketType.AUTH` holds (the sibling redirector
versions `src/unnamed/part_005` and `part_006` test `!==` here), while
the same frame with first token `DATA` and the right secret is accepted
and opens a listener on port 8080. -/
theorem c3_auth_frame_closes_control_socket :
    redirectorAuth ("hunter2") ("AUTH hunter2 8080") = AuthResult.closeSocket ∧
    redirectorAuth ("hunter2") ("DATA hunter2 8080") =
      AuthResult.accept [some 8080] := by
  constructor
  · rfl
  · rfl

/-- C4 (counterexample). After a normal close of the control socket,
the claim says the session table is cleared; in the state `exRState1`
the session `exId` is still present afterwards. After a close caused by
a transmission error the handler does nothing at all, so not even the
port registry is cleared. -/
theorem c4_teardown_counterexample :
    (redirectorMainClose false exRState1).connections = [(exId, 8080)] ∧
    redirectorMainClose true exRState1 = exRState1 := by
  constructor
  · rfl
  · rfl

/-- C4 (amended). When the control socket closes after an error the
handler returns immediately and the state is unchanged; on a normal
close the port registry is nulled (so the next control connection must
re-authenticate) and every public listener is closed, while the
listener map keeps its entries and the session table and fragment
buffers are untouched; no public socket is closed. -/
theorem c4_teardown_amended (st : RedirectorState) :
    redirectorMainClose true st = st ∧
    redirectorMainClose false st =
      { ports := none, servers := st.servers.map (fun p => (p.1, false)),
        connections := st.connections,
        shredded_packets := st.shredded_packets } := by
  constructor
  · rfl
  · rfl

set_option maxRecDepth 20000 in
/-- C5 (code bug). A 385-byte chunk read from the public socket of
session `exId` on port 8080 is split into `ceil(385/384) = 2` SHRED
frames as claimed, but their fragment indices are the 0-based loop
indices 0 and 1 (the first fragment carries 0, not 1), and both frames
are written back to the public socket (`socket.write`, line 153 of
`src/server/redirector.ts`) instead of the control channel — while the
adjacent debug log prints the 1-based `i + 1` and the starter-side
splitter uses `i + 1`. -/
theorem c5_redirector_shred_emission :
    redirectorSockData wh wh exId 8080 exPayload =
      [(Dest.pub, ⟨"SHRED " ++ exId ++ " 8080 384 384 0 2", exFragA⟩),
       (Dest.pub, ⟨"SHRED " ++ exId ++ " 8080 1 1 1 2", exFragB⟩)] := by
  rfl

set_option maxRecDepth 20000 in
/-- C1 (code bug). The starter splits the 385-byte payload `exPayload`
into `ceil(385/384) = 2` SHRED frames, but the redirector delivers
nothing to the destination socket no matter the arrival order: the
starter's typeless headers fail the redirector's `isUUID` test on the
second token, and even SHRED frames in the action-tagged layout the
redirector parses (`exTypedShred1`, `exTypedShred2`) are stored without
ever being reassembled, because `header.split(' ', 5)` never yields the
`total` token, so the completeness test compares the buffer size with
`parseInt(undefined) = NaN`. In all runs the bytes delivered downstream
are `[]`, not the original payload. -/
theorem c1_fragmentation_roundtrip_fails :
    (starterConnData wh wh exId exPayload).length = 2 ∧
    (redirectorRun wh wh exRState1 (starterConnData wh wh exId exPayload)).2.toPub = [] ∧
    (redirectorRun wh wh exRState1 [exTypedShred1, exTypedShred2]).2.toPub = [] ∧
    (redirectorRun wh wh exRState1 [exTypedShred2, exTypedShred1]).2.toPub = [] := by
  refine ⟨rfl, rfl, rfl, rfl⟩

/-- C7 (counterexample). When the backend socket of session `exId`
closes, the starter's handler deletes the table entry but writes
nothing upstream: the list of frames it emits is empty, so no CLOSE
frame for `exId` reaches the control channel, contrary to the claim. -/
theorem c7_backend_close_counterexample :
    starterConnClose exSState1 exId =
      ({ connections := [], shredded_packets := [],
         reassembled_packets := [] }, []) := by
  rfl

/-- C10 (counterexample). A SHRED frame (`exOldShred`, fragment 1 of 2
in the starter's own typeless wire layout, digests matching) arrives at
the starter while no fragment buffer exists for its id: the starter
creates no buffer — `header.split(' ', 4)` can never produce the
fragment-number token, so the SHRED branch is unreachable — and instead
writes the fragment body straight to the backend socket. -/
theorem c10_first_shred_counterexample :
    (starterSocketData wh wh exSState0 exOldShred).1.shredded_packets = [] ∧
    (starterSocketData wh wh exSState0 exOldShred).2.toBackend =
      [(exId, exFragB)] := by
  constructor
  · rfl
  · rfl

/-- C2. When the recomputed digests disagree with the header digest
tokens, the receiving handler writes nothing to any downstream socket
and leaves the session state unchanged: the redirector's established
branch returns before the public-socket write and before any table or
fragment-buffer update (and its unknown-id CLOSE reply goes to the
control socket, not downstream), and the starter's handler returns
before opening a connection, writing to a backend, or touching any
table. -/
theorem c2_digest_mismatch_silently_discarded :
    (∀ (h1 h2 : List Nat → String) (st : RedirectorState) (ch : Chunk),
      ((jsSplit ' ' ch.header 5)[2]? ≠ some (h1 ch.body) ∨
        (jsSplit ' ' ch.header 5)[3]? ≠ some (h2 ch.body)) →
      (redirectorMainDataEstablished h1 h2 st ch).1 = st ∧
        (redirectorMainDataEstablished h1 h2 st ch).2.toPub = []) ∧
    (∀ (h1 h2 : List Nat → String) (st : StarterState) (ch : Chunk),
      ((jsSplit ' ' ch.header 4)[2]? ≠ some (h1 ch.body) ∨
        (jsSplit ' ' ch.header 4)[3]? ≠ some (h2 ch.body)) →
      starterSocketData h1 h2 st ch = (st, ⟨[], []⟩)) := by
  constructor
  · intro h1 h2 st ch hmis
    have hb : (((jsSplit ' ' ch.header 5)[2]? != some (h1 ch.body)) ||
        ((jsSplit ' ' ch.header 5)[3]? != some (h2 ch.body))) = true := by
      rcases hmis with h | h <;> simp [h]
    by_cases hch : ch.header = ""
    · constructor <;> simp [redirectorMainDataEstablished, hch]
    · by_cases hu : isUUID (jsSplit ' ' ch.header 5)[1]? = true
      · rcases hc : tGet st.connections
            (((jsSplit ' ' ch.header 5)[1]?).getD ("")) with _ | p
        · constructor <;>
            simp [redirectorMainDataEstablished, hch, hu, hc]
        · constructor <;>
            simp [redirectorMainDataEstablished, hch, hu, hc, hb]
      · have hu2 : isUUID (jsSplit ' ' ch.header 5)[1]? = false := by
          simpa using hu
        constructor <;> simp [redirectorMainDataEstablished, hch, hu2]
  · intro h1 h2 st ch hmis
    have hb : (((jsSplit ' ' ch.header 4)[2]? != some (h1 ch.body)) ||
        ((jsSplit ' ' ch.header 4)[3]? != some (h2 ch.body))) = true := by
      rcases hmis with h | h <;> simp [h]
    simp [starterSocketData, hb]

/-- Witness for C2: with the stand-in digest `wh`, the frame
`exMismatchR` (header digests `xx yy`, body digest `2`) leaves the
redirector state `exRState1` unchanged with no downstream write, and
the typeless frame `exMismatchS` is discarded by the starter with state
unchanged. -/
theorem c2_digest_mismatch_witness :
    (redirectorMainDataEstablished wh wh exRState1 exMismatchR).1 = exRState1 ∧
    (redirectorMainDataEstablished wh wh exRState1 exMismatchR).2.toPub = [] ∧
    starterSocketData wh wh exSState0 exMismatchS = (exSState0, ⟨[], []⟩) :=
  ⟨(c2_digest_mismatch_silently_discarded.1 wh wh exRState1 exMismatchR
      (Or.inl (by decide))).1,
   (c2_digest_mismatch_silently_discarded.1 wh wh exRState1 exMismatchR
      (Or.inl (by decide))).2,
   c2_digest_mismatch_silently_discarded.2 wh wh exSState0 exMismatchS
      (Or.inl (by decide))⟩

/-- C8. A frame whose header parses to a DATA or SHRED action with a
valid session id that is absent from the redirector's session table
makes the handler write a CLOSE frame carrying that id back to the
control socket, write nothing to any public socket, and leave the state
unchanged; the body is discarded. -/
theorem c8_unknown_id_replies_close (h1 h2 : List Nat → String)
    (st : RedirectorState) (ch : Chunk) (i : String)
    (_hact : (jsSplit ' ' ch.header 5)[0]? = some ("DATA") ∨
        (jsSplit ' ' ch.header 5)[0]? = some ("SHRED"))
    (hid : (jsSplit ' ' ch.header 5)[1]? = some i)
    (huuid : isUUID (some i) = true)
    (hunknown : tGet st.connections i = none) :
    redirectorMainDataEstablished h1 h2 st ch =
      (st, ⟨[redirAppendHeaderClose i], []⟩) := by
  have hch : ¬ (ch.header = "") := by
    intro h0
    rw [h0] at hid
    exact Option.noConfusion hid
  simp [redirectorMainDataEstablished, hch, hid, huuid, hunknown]

/-- Witness for C8: a DATA frame for the unknown id `exId2` in state
`exRState1` draws a CLOSE reply on the control socket and no downstream
write. -/
theorem c8_unknown_id_witness :
    redirectorMainDataEstablished wh wh exRState1 exUnknownData =
      (exRState1, ⟨[redirAppendHeaderClose exId2], []⟩) :=
  c8_unknown_id_replies_close wh wh exRState1 exUnknownData exId2
    (Or.inl (by decide)) (by decide) (by decide) (by decide)

/-- C6. On an inbound CLOSE frame for a session id registered in its
connection table, the part_002 starter ends the backend socket
registered under that id and removes the id from the table, writing
nothing to any backend. -/
theorem c6_close_ends_backend_and_removes (h1 h2 : List Nat → String)
    (st : Starter2State) (ch : Chunk) (i : String)
    (htoks : jsSplit ' ' ch.header 5 = ["CLOSE", i])
    (huuid : isUUID (some i) = true)
    (hreg : tHas st.connections i = true) :
    starter2SocketData h1 h2 st ch =
      ({ connections := tDelete st.connections i }, ⟨[], [i], []⟩) := by
  have hpt : isPacketType2 (some ("CLOSE")) = true := by rfl
  simp [starter2SocketData, htoks, huuid, hreg, hpt]

/-- Witness for C6: the CLOSE frame for `exId` in state `exS2State`
ends the backend socket of `exId` and deletes its table entry. -/
theorem c6_close_witness :
    starter2SocketData wh wh exS2State exCloseChunk =
      ({ connections := tDelete exS2State.connections exId }, ⟨[], [exId], []⟩) :=
  c6_close_ends_backend_and_removes wh wh exS2State exCloseChunk exId
    (by decide) (by decide) (by decide)

/-- C7 (amended). When the backend socket of session `i` closes, the
starter removes `i` from its connection table — every other entry and
the fragment state are untouched, so only that session is terminated —
but it emits no CLOSE frame (nor any other frame) upstream on the
control channel. -/
theorem c7_backend_close_amended (st : StarterState) (i : String) :
    (starterConnClose st i).2 = [] ∧
    tGet (starterConnClose st i).1.connections i = none ∧
    (∀ j, j ≠ i →
      tGet (starterConnClose st i).1.connections j = tGet st.connections j) ∧
    (starterConnClose st i).1.shredded_packets = st.shredded_packets ∧
    (starterConnClose st i).1.reassembled_packets = st.reassembled_packets := by
  refine ⟨rfl, ?_, ?_, rfl, rfl⟩
  · exact tGet_tDelete_self st.connections i
  · intro j hj
    exact tGet_tDelete_ne st.connections i j hj

/-- Witness for C7 (amended): closing the backend of `exId` in state
`exSState1` removes `exId` and leaves the absent `exId2` unaffected. -/
theorem c7_backend_close_witness :
    tGet (starterConnClose exSState1 exId).1.connections exId = none ∧
    tGet (starterConnClose exSState1 exId).1.connections exId2 =
      tGet exSState1.connections exId2 :=
  ⟨(c7_backend_close_amended exSState1 exId).2.1,
   (c7_backend_close_amended exSState1 exId).2.2.1 exId2 (by decide)⟩

/-- C10 (amended). On the redirector, a SHRED frame (action-tagged
layout, valid known id, matching digests, non-empty fragment token)
arriving while no fragment buffer exists for its id creates the buffer
holding just that fragment and delivers nothing — no completeness check
runs on a first fragment, so in particular the first fragment never
triggers delivery. On the starter, the fragment state is never touched
by any inbound chunk whatsoever: `header.split(' ', 4)` cannot produce
the fragment-number token, so the SHRED branch of
`src/client/starter.ts` lines 162-179 is unreachable. -/
theorem c10_first_shred_amended :
    (∀ (h1 h2 : List Nat → String) (st : RedirectorState) (ch : Chunk)
        (i d1 d2 n t : String),
      splitChar ' ' ch.header = ["SHRED", i, d1, d2, n, t] →
      isUUID (some i) = true →
      tGet st.connections i ≠ none →
      d1 = h1 ch.body → d2 = h2 ch.body → n ≠ "" →
      tGet st.shredded_packets i = none →
      redirectorMainDataEstablished h1 h2 st ch =
        ({ st with shredded_packets := tSet st.shredded_packets i [(jsParseInt n, ch.body)] },
         ⟨[], []⟩)) ∧
    (∀ (h1 h2 : List Nat → String) (st : StarterState) (ch : Chunk),
      (starterSocketData h1 h2 st ch).1.shredded_packets = st.shredded_packets ∧
      (starterSocketData h1 h2 st ch).1.reassembled_packets =
        st.reassembled_packets) := by
  constructor
  · intro h1 h2 st ch i d1 d2 n t hsplit huuid hconn hd1 hd2 hn hbuf
    have h5 : jsSplit ' ' ch.header 5 = ["SHRED", i, d1, d2, n] := by
      unfold jsSplit
      rw [hsplit]
      rfl
    have hch : ¬ (ch.header = "") := by
      intro h0
      rw [h0] at hsplit
      have hlen := congrArg List.length hsplit
      simp [splitChar, splitCharAux] at hlen
    obtain ⟨p, hp⟩ := Option.ne_none_iff_exists'.mp hconn
    subst hd1
    subst hd2
    simp [redirectorMainDataEstablished, hch, h5, huuid, hp, hbuf, hn,
      isPacketType, jsParseIntOpt, fmSet]
  · intro h1 h2 st ch
    have h4 : (jsSplit ' ' ch.header 4)[4]? = none := by
      apply List.getElem?_eq_none
      exact le_trans (List.length_take_le _ _) (by omega)
    simp only [starterSocketData, h4]
    split
    · exact ⟨rfl, rfl⟩
    · split
      · exact ⟨rfl, rfl⟩
      · simp only [beq_self_eq_true, Bool.true_or, if_true]
        split <;> exact ⟨rfl, rfl⟩

set_option maxRecDepth 20000 in
/-- Witness for C10 (amended): the first action-tagged SHRED frame
`exTypedShred1` (fragment 1 of 2) for the known session `exId` with no
existing buffer is stored in a fresh buffer without any delivery, and
the same frame leaves the starter's fragment state untouched. -/
theorem c10_first_shred_witness :
    redirectorMainDataEstablished wh wh exRState1 exTypedShred1 =
      ({ exRState1 with shredded_packets := tSet exRState1.shredded_packets exId [(jsParseInt ("1"), exTypedShred1.body)] },
       ⟨[], []⟩) ∧
    (starterSocketData wh wh exSState0 exTypedShred1).1.shredded_packets =
      exSState0.shredded_packets :=
  ⟨c10_first_shred_amended.1 wh wh exRState1 exTypedShred1 exId ("384") ("384")
      ("1") ("2") (by decide) (by decide) (by decide) (by decide) (by decide)
      (by decide) (by decide),
   (c10_first_shred_amended.2 wh wh exSState0 exTypedShred1).1⟩

end ReverseProxy
